import Mathlib

/-!
Verification development for the `autoaudio` repository (files `router.py`,
`router-multi.py`).  The Python source is shallowly embedded below:

* devices are records carrying an opaque handle and a description
  (a list of characters); Python substring containment (`filter in
  d.description()`) is the contiguous-sublist relation `<:+:`;
* the adaptive gain stage of `process_input` is a pure function on the
  circular peak history; 16-bit integers are `Int` with explicit
  two's-complement reduction (`wrap16`), the numpy `astype(np.int16)`
  conversion of a float is truncation toward zero followed by that
  modular reduction, and real (float) arithmetic is idealised as `ℚ`;
* `detect_device` of both variants becomes an explicit state-passing
  function returning `Except Unit`, where `.error ()` marks a point at
  which the Python code raises `AttributeError` by calling
  `.description()` on `None`;
* every started-and-not-yet-stopped audio sink/source is tracked in an
  explicit live list, so the "at most one live output stream" invariant
  is observable in the state.
-/

namespace AutoAudio

/-! ### Devices and the selection function (`find_device`, both variants) -/

/-- A host audio device: an opaque identity (`handle`) plus the display
description used as the matching key.  Two devices are compared by the
whole record, mirroring Qt device-value equality. -/
structure Device where
  handle : Nat
  descr : List Char
deriving DecidableEq

/-- A snapshot of the host catalog: `media_devices.audioInputs()` and
`media_devices.audioOutputs()` at one point in time. -/
structure Catalog where
  inputs : List Device
  outputs : List Device
deriving DecidableEq

/-- `router.py` line 95–96 / `router-multi.py` line 111–112:
`next((d for d in devices if filter in d.description()), None)`. -/
def find_device (devices : List Device) (filt : List Char) : Option Device :=
  devices.find? (fun d => decide (filt <:+: d.descr))

/-! ### The gain stage (`process_input`, `router.py` 115–121,
`router-multi.py` 138–146) -/

/-- Two's-complement reduction into the signed 16-bit range. -/
def wrap16 (n : Int) : Int := (n + 32768) % 65536 - 32768

/-- `np.abs` on an `int16` array: elementwise absolute value computed in
16-bit two's complement, so `np.abs(-32768) = -32768`. -/
def absInt16 (x : Int) : Int := wrap16 |x|

/-- `np.max` over a (nonempty) array.  numpy raises on an empty array;
the `[]` case below is a junk value that no theorem relies on — every
statement about a processed block assumes the block is nonempty. -/
def listMax : List Int → Int
  | [] => 0
  | x :: xs => xs.foldl max x

/-- Truncation toward zero, the conversion C (and hence numpy's
`astype`) applies to a float being narrowed to an integer type. -/
def ratTrunc (q : ℚ) : Int := if 0 ≤ q then ⌊q⌋ else ⌈q⌉

/-- `router.py` line 120: `actual_gain = 32767 / peak_level if peak_level
> 10369 else 3.16`. -/
def actualGain (p : Int) : ℚ := if 10369 < p then 32767 / (p : ℚ) else 3.16

/-- One sample of `(np_data * actual_gain).astype(np.int16)`: the float
product truncated toward zero and reduced mod 2^16 into int16. -/
def scaleSample (g : ℚ) (s : Int) : Int := wrap16 (ratTrunc ((s : ℚ) * g))

/-- Result of the boosted branch of `process_input`: updated circular
history and cursor, the gain applied, and the scaled output block. -/
structure GainResult where
  history : List Int
  index : Nat
  gain : ℚ
  output : List Int
deriving DecidableEq

/-- The boosted branch of `process_input` (identical maths in both
variants):

    self.peak_history[self.history_index] = np.max(np.abs(np_data))
    self.history_index = (self.history_index + 1) % 1000
    peak_level = np.max(self.peak_history)
    actual_gain = 32767 / peak_level if peak_level > 10369 else 3.16
    self.data = (np_data * actual_gain).astype(np.int16).tobytes()
-/
def processBlock (hist : List Int) (idx : Nat) (block : List Int) : GainResult :=
  let blockPeak := listMax (block.map absInt16)
  let hist2 := hist.set idx blockPeak
  let idx2 := (idx + 1) % 1000
  let peakLevel := listMax hist2
  let g := actualGain peakLevel
  ⟨hist2, idx2, g, block.map (scaleSample g)⟩

/-- The gain state as initialised in `__init__`:
`np.zeros(1000, dtype=np.int16)` and cursor `0`. -/
def initHistory : List Int := List.replicate 1000 0

/-! ### Basic lemmas about `listMax`, `wrap16`, `ratTrunc` -/

theorem listMax_cons (x : Int) (xs : List Int) :
    listMax (x :: xs) = xs.foldl max x := rfl

theorem foldl_max_le {l : List Int} {a b : Int} (ha : a ≤ b)
    (hb : ∀ x ∈ l, x ≤ b) : l.foldl max a ≤ b := by
  induction l generalizing a with
  | nil => exact ha
  | cons y ys ih =>
    exact ih (max_le ha (hb y (List.mem_cons_self _ _)))
      (fun x hx => hb x (List.mem_cons_of_mem _ hx))

theorem le_foldl_max_init {l : List Int} {a : Int} : a ≤ l.foldl max a := by
  induction l generalizing a with
  | nil => exact le_refl a
  | cons y ys ih => exact le_trans (le_max_left a y) ih

theorem le_foldl_max_of_mem {l : List Int} {a x : Int} (hx : x ∈ l) :
    x ≤ l.foldl max a := by
  induction l generalizing a with
  | nil => cases hx
  | cons y ys ih =>
    rcases List.mem_cons.1 hx with h | h
    · subst h
      exact le_trans (le_max_right a x) le_foldl_max_init
    · exact ih h

theorem foldl_max_mem (l : List Int) (a : Int) :
    l.foldl max a = a ∨ l.foldl max a ∈ l := by
  induction l generalizing a with
  | nil => exact Or.inl rfl
  | cons y ys ih =>
    rcases ih (max a y) with h | h
    · rcases max_choice a y with h2 | h2
      · exact Or.inl (by rw [List.foldl_cons, h, h2])
      · exact Or.inr (by rw [List.foldl_cons, h, h2]; exact List.mem_cons_self _ _)
    · exact Or.inr (List.mem_cons_of_mem _ h)

theorem le_listMax {l : List Int} {x : Int} (hx : x ∈ l) : x ≤ listMax l := by
  cases l with
  | nil => cases hx
  | cons y ys =>
    rcases List.mem_cons.1 hx with h | h
    · exact h ▸ le_foldl_max_init
    · exact le_foldl_max_of_mem h

theorem listMax_mem {l : List Int} (h : l ≠ []) : listMax l ∈ l := by
  cases l with
  | nil => exact absurd rfl h
  | cons y ys =>
    show ys.foldl max y ∈ y :: ys
    rcases foldl_max_mem ys y with h2 | h2
    · rw [h2]; exact List.mem_cons_self _ _
    · exact List.mem_cons_of_mem _ h2

theorem listMax_le {l : List Int} {b : Int} (h0 : 0 ≤ b)
    (hb : ∀ x ∈ l, x ≤ b) : listMax l ≤ b := by
  cases l with
  | nil => exact h0
  | cons y ys =>
    exact foldl_max_le (hb y (List.mem_cons_self _ _))
      (fun x hx => hb x (List.mem_cons_of_mem _ hx))

theorem wrap16_range (n : Int) : -32768 ≤ wrap16 n ∧ wrap16 n ≤ 32767 := by
  unfold wrap16
  constructor
  · have h := Int.emod_nonneg (n + 32768) (by decide : (65536 : Int) ≠ 0)
    omega
  · have h := Int.emod_lt_of_pos (n + 32768) (by decide : (0 : Int) < 65536)
    omega

theorem wrap16_eq_self {n : Int} (h1 : -32768 ≤ n) (h2 : n ≤ 32767) :
    wrap16 n = n := by
  unfold wrap16
  have h := Int.emod_eq_of_lt (a := n + 32768) (b := 65536) (by omega) (by omega)
  omega

theorem absInt16_eq_abs {s : Int} (h : |s| ≤ 32767) : absInt16 s = |s| :=
  wrap16_eq_self (le_trans (by decide) (abs_nonneg s)) h

theorem ratTrunc_range {q : ℚ} (h1 : -32767 < q) (h2 : q < 32767) :
    -32766 ≤ ratTrunc q ∧ ratTrunc q ≤ 32766 := by
  unfold ratTrunc
  split
  · rename_i hq
    have hf : ⌊q⌋ < (32767 : ℤ) := Int.floor_lt.2 (by exact_mod_cast h2)
    have hf0 : 0 ≤ ⌊q⌋ := Int.floor_nonneg.2 hq
    omega
  · rename_i hq
    push_neg at hq
    have hc : ⌈q⌉ ≤ (0 : ℤ) := by
      have := Int.ceil_le (z := (0 : ℤ)) (a := q)
      exact this.2 (by exact_mod_cast le_of_lt hq)
    have hc2 : (-32767 : ℤ) < ⌈q⌉ := Int.lt_ceil.2 (by exact_mod_cast h1)
    omega

/-! ### Router state (both variants)

The routing fields of `AutoAudioRouter`.  Each started `QAudioSink` /
`QAudioSource` receives a fresh numeric id and is recorded in the
live list until `.stop()` is called on it, so "number of simultaneously
started output sinks" is `liveSinks.length`.  The gain state
(`peak_history` / `history_index`) is independent of routing (only
`process_input` touches it) and is modelled separately by
`processBlock`. -/

/-- A started `QAudioSink`: its id and the device it was built on
(`none` models `QAudioSink(None, fmt)`, built when the corresponding
device slot is unresolved). -/
structure Sink where
  id : Nat
  target : Option Device
deriving DecidableEq

/-- A started `QAudioSource`. -/
structure Source where
  id : Nat
  target : Option Device
deriving DecidableEq

/-- The routing fields of `AutoAudioRouter`, common to `router.py` and
`router-multi.py`. -/
structure RouterState where
  input_filter : List Char
  fallback_filter : List Char
  primary_filter : List Char
  input_device : Option Device
  primary_device : Option Device
  fallback_device : Option Device
  sink : Option Sink
  source : Option Source
  liveSinks : List Sink
  liveSources : List Source
  nextSinkId : Nat
  nextSourceId : Nat
deriving DecidableEq

/-- `__init__` / `setup`: default filters, no devices resolved, no
streams. -/
def initState : RouterState where
  input_filter := "Virtual Audio Cable".toList
  fallback_filter := "Speakers".toList
  primary_filter := "Headphones".toList
  input_device := none
  primary_device := none
  fallback_device := none
  sink := none
  source := none
  liveSinks := []
  liveSources := []
  nextSinkId := 0
  nextSourceId := 0

/-- Equality of `Except` results is decidable; lets concrete runs be
checked by `decide`. -/
instance {ε α : Type} [DecidableEq ε] [DecidableEq α] :
    DecidableEq (Except ε α) := fun a b =>
  match a, b with
  | .error e1, .error e2 =>
    if h : e1 = e2 then isTrue (by rw [h])
    else isFalse (fun hh => by injection hh; contradiction)
  | .error _, .ok _ => isFalse (fun hh => Except.noConfusion hh)
  | .ok _, .error _ => isFalse (fun hh => Except.noConfusion hh)
  | .ok a1, .ok a2 =>
    if h : a1 = a2 then isTrue (by rw [h])
    else isFalse (fun hh => by injection hh; contradiction)

/-- `.description()` on an `Option` device: raises `AttributeError`
(modelled `.error ()`) when the device is `None`. -/
def descrOf : Option Device → Except Unit (List Char)
  | none => .error ()
  | some d => .ok d.descr

/-- `router.py` `build_sink` (lines 35–41): stop the current sink (if
any), then build and start a new one on `device`. -/
def buildSink (st : RouterState) (device : Option Device) : RouterState :=
  let live := match st.sink with
    | some s => st.liveSinks.filter (fun t => t.id ≠ s.id)
    | none => st.liveSinks
  let s : Sink := ⟨st.nextSinkId, device⟩
  { st with sink := some s, liveSinks := live ++ [s], nextSinkId := st.nextSinkId + 1 }

/-- `router.py` `build_source` (lines 43–50): stop the current source,
then build and start a new one on the current `input_device`. -/
def buildSource (st : RouterState) : RouterState :=
  let live := match st.source with
    | some s => st.liveSources.filter (fun t => t.id ≠ s.id)
    | none => st.liveSources
  let s : Source := ⟨st.nextSourceId, st.input_device⟩
  { st with source := some s, liveSources := live ++ [s], nextSourceId := st.nextSourceId + 1 }

/-! ### `router.py` `detect_device` (lines 52–85) -/

/-- The status snapshot of `router.py` (lines 77–84), with `"None"`
sentinels for unresolved devices. -/
structure SnapshotPy where
  input_devices : List (List Char)
  output_devices : List (List Char)
  input_device : List Char
  primary_device : List Char
  fallback_device : List Char
  primary_filter : List Char
deriving DecidableEq

/-- `router.py` lines 77–84: the emitted `device_info` dictionary. -/
def mkSnapshotPy (st : RouterState) (cat : Catalog) : SnapshotPy where
  input_devices := cat.inputs.map Device.descr
  output_devices := cat.outputs.map Device.descr
  input_device := match st.input_device with
    | some d => d.descr
    | none => "None".toList
  primary_device := match st.primary_device with
    | some d => d.descr
    | none => "None".toList
  fallback_device := match st.fallback_device with
    | some d => d.descr
    | none => "None".toList
  primary_filter := st.primary_filter

/-- `router.py` lines 53–58: resolve the input filter; on change, print
the new device's description (raising on `None`) and rebuild the
source. -/
def stepIn (cat : Catalog) (st : RouterState) : Except Unit RouterState :=
  let d := find_device cat.inputs st.input_filter
  if d = st.input_device then .ok st
  else
    match d with
    | none => .error ()
    | some dev => .ok (buildSource { st with input_device := some dev })

/-- `router.py` lines 60–67: resolve the fallback filter; on change,
print its description (raising on `None`), record it, and — when the
primary is unresolved — rebuild the sink on `self.fallback_device`,
which at that point is the just-assigned `f`. -/
def stepFb (cat : Catalog) (st : RouterState) : Except Unit RouterState :=
  let f := find_device cat.outputs st.fallback_filter
  let p := find_device cat.outputs st.primary_filter
  if f = st.fallback_device then .ok st
  else
    match f with
    | none => .error ()
    | some _ =>
      let st2 := { st with fallback_device := f }
      .ok (if p = none then buildSink st2 f else st2)

/-- `router.py` lines 68–75: on a primary change, record it and rebuild
the sink on the primary when resolved, else on `self.fallback_device` —
this branch assigns only `primary_device`, so that is `st`'s fallback
slot. -/
def stepPr (cat : Catalog) (st : RouterState) : RouterState :=
  let p := find_device cat.outputs st.primary_filter
  if p = st.primary_device then st
  else
    let st2 := { st with primary_device := p }
    match p with
    | some dev => buildSink st2 (some dev)
    | none => buildSink st2 st.fallback_device

/-- `router.py` `detect_device` (lines 52–85): the three re-resolution
steps in source order, then the unconditional snapshot emission. -/
def detectDevicePy (st : RouterState) (cat : Catalog) :
    Except Unit (RouterState × SnapshotPy) :=
  match stepIn cat st with
  | .error e => .error e
  | .ok st1 =>
    match stepFb cat st1 with
    | .error e => .error e
    | .ok st2 =>
      let st3 := stepPr cat st2
      .ok (st3, mkSnapshotPy st3 cat)

/-! ### `router-multi.py` `detect_device` (lines 75–109) and
`send_device_info` (lines 60–67) -/

/-- The snapshot of `router-multi.py` `send_device_info`: the `primary`
slot uses the empty string as the not-connected sentinel; the `input`
and `fallback` slots have no sentinel at all. -/
structure SnapshotM where
  inputs : List (List Char)
  input : List Char
  outputs : List (List Char)
  fallback : List Char
  primary : List Char
  primary_filter : List Char
deriving DecidableEq

/-- `router-multi.py` lines 60–67: `send_device_info` evaluates
`self.input_device.description()` and `self.fallback_device.description()`
unconditionally, raising `AttributeError` when either is `None`; only
the primary slot is guarded (sentinel `""`). -/
def sendDeviceInfo (st : RouterState) (cat : Catalog) : Except Unit SnapshotM :=
  match st.input_device, st.fallback_device with
  | some di, some df =>
    .ok { inputs := cat.inputs.map Device.descr
          input := di.descr
          outputs := cat.outputs.map Device.descr
          fallback := df.descr
          primary := match st.primary_device with
            | some p => p.descr
            | none => []
          primary_filter := st.primary_filter }
  | _, _ => .error ()

/-- `router-multi.py` lines 78–86: the input branch.  `source0` is the
`source = self.source` local captured at the top of `detect_device`:
the new source is created, then `source0` (not the current source) is
stopped, then the new one is started. -/
def multiInput (cat : Catalog) (source0 : Option Source) (st : RouterState) :
    RouterState :=
  let d := find_device cat.inputs st.input_filter
  if d = st.input_device then st
  else
    let st2 := { st with input_device := d }
    let live := match source0 with
      | some s => st2.liveSources.filter (fun t => t.id ≠ s.id)
      | none => st2.liveSources
    let s : Source := ⟨st2.nextSourceId, d⟩
    { st2 with source := some s, liveSources := live ++ [s],
               nextSourceId := st2.nextSourceId + 1 }

/-- `router-multi.py` lines 90–97: the fallback branch.  On a fallback
change with the primary unresolved, a new sink is built on the (new)
fallback and started, and then `sink0` — the `sink = self.sink` local
captured at the top of `detect_device` — is stopped. -/
def multiFallback (cat : Catalog) (sink0 : Option Sink) (st : RouterState) :
    RouterState :=
  let f := find_device cat.outputs st.fallback_filter
  let p := find_device cat.outputs st.primary_filter
  if f = st.fallback_device then st
  else
    let st2 := { st with fallback_device := f }
    if p = none then
      let s : Sink := ⟨st.nextSinkId, f⟩
      let live := st2.liveSinks ++ [s]
      let live2 := match sink0 with
        | some s0 => live.filter (fun t => t.id ≠ s0.id)
        | none => live
      { st2 with sink := some s, liveSinks := live2, nextSinkId := st.nextSinkId + 1 }
    else st2

/-- `router-multi.py` lines 98–108: the primary branch.  On a primary
change, a new sink is built on the primary when resolved, else on the
current fallback; it is started and then the stale captured `sink0` is
stopped again. -/
def multiPrimary (cat : Catalog) (sink0 : Option Sink) (st : RouterState) :
    RouterState :=
  let p := find_device cat.outputs st.primary_filter
  if p = st.primary_device then st
  else
    let st2 := { st with primary_device := p }
    let tgt := match p with
      | some dev => some dev
      | none => st.fallback_device
    let s : Sink := ⟨st.nextSinkId, tgt⟩
    let live := st2.liveSinks ++ [s]
    let live2 := match sink0 with
      | some s0 => live.filter (fun t => t.id ≠ s0.id)
      | none => live
    { st2 with sink := some s, liveSinks := live2, nextSinkId := st.nextSinkId + 1 }

/-- The pure state transition of `router-multi.py` `detect_device`
(lines 75–108): `sink`/`source` locals are captured once, then the
three branches run in source order. -/
def multiCore (st : RouterState) (cat : Catalog) : RouterState :=
  let sink0 := st.sink
  let source0 := st.source
  let st1 := multiInput cat source0 st
  let st2 := multiFallback cat sink0 st1
  multiPrimary cat sink0 st2

/-- `router-multi.py` `detect_device` (lines 75–109): the state
transition followed by `send_device_info`. -/
def detectDeviceMulti (st : RouterState) (cat : Catalog) :
    Except Unit (RouterState × SnapshotM) :=
  let st1 := multiCore st cat
  match sendDeviceInfo st1 cat with
  | .error e => .error e
  | .ok snap => .ok (st1, snap)

/-- The device the current sink was built on, when a sink exists. -/
def sinkTarget (st : RouterState) : Option (Option Device) :=
  st.sink.map Sink.target

/-- The reachable-state targeting invariant: the live sink was built on
the primary device when one is resolved, else on the fallback device
when that one is resolved.  It holds in `initState` (vacuously) and is
preserved by `detect_device` of both variants. -/
def Inv (st : RouterState) : Prop :=
  (∀ p, st.primary_device = some p → sinkTarget st = some (some p)) ∧
  (st.primary_device = none →
    ∀ f, st.fallback_device = some f → sinkTarget st = some (some f))

/-! ### Helper lemmas for the gain claims -/

/-- Unfolding equation for `processBlock`. -/
theorem processBlock_def (hist : List Int) (idx : Nat) (block : List Int) :
    processBlock hist idx block =
      ⟨hist.set idx (listMax (block.map absInt16)),
       (idx + 1) % 1000,
       actualGain (listMax (hist.set idx (listMax (block.map absInt16)))),
       block.map (scaleSample (actualGain
         (listMax (hist.set idx (listMax (block.map absInt16))))))⟩ := rfl

theorem getD_of_lt (l : List Int) (i : Nat) (h : i < l.length) :
    l.getD i 0 = l.get ⟨i, h⟩ := by
  rw [List.getD_eq_getElem?_getD, List.getElem?_eq_getElem h]
  rfl

/-- Every slot written by the gain stage is a 16-bit value, so the
history peak of any block list is at most 32767. -/
theorem blockPeak_le (bl : List Int) : listMax (bl.map absInt16) ≤ 32767 := by
  refine listMax_le (by decide) ?_
  intro x hx
  obtain ⟨s, _, rfl⟩ := List.mem_map.1 hx
  exact (wrap16_range _).2

/-- `find?` returns the first element satisfying the test. -/
theorem find?_first {α : Type} (p : α → Bool) :
    ∀ (l : List α) (a : α), l.find? p = some a →
      ∃ i, ∃ hi : i < l.length, l.get ⟨i, hi⟩ = a ∧ p a = true ∧
        ∀ j, (hj : j < l.length) → j < i → p (l.get ⟨j, hj⟩) = false
  | [], a, h => by simp at h
  | x :: xs, a, h => by
    by_cases hp : p x
    · rw [List.find?_cons_of_pos _ hp] at h
      obtain rfl : x = a := by injection h
      exact ⟨0, Nat.succ_pos _, rfl, hp, fun j hj hj0 => absurd hj0 (Nat.not_lt_zero j)⟩
    · rw [List.find?_cons_of_neg _ hp] at h
      obtain ⟨i, hi, hget, hpa, hfirst⟩ := find?_first p xs a h
      refine ⟨i + 1, Nat.succ_lt_succ hi, hget, hpa, ?_⟩
      intro j hj hji
      cases j with
      | zero => simpa using hp
      | succ k =>
        exact hfirst k (Nat.lt_of_succ_lt_succ hj) (Nat.lt_of_succ_lt_succ hji)

/-! ### Claim theorems: device selection -/

/-- Claim C4: for every device list `D` and filter `F`, `find_device`
returns the first device of `D` in enumeration order whose description
contains `F` as a substring, and `none` exactly when no device matches;
for empty `D` it returns `none`, and for the empty filter it returns
the head of any nonempty `D` (the empty string is contained in every
description). -/
theorem C4_find_device_first (D : List Device) (F : List Char) :
    (∀ d, find_device D F = some d →
      F <:+: d.descr ∧
      ∃ i, ∃ hi : i < D.length, D.get ⟨i, hi⟩ = d ∧
        ∀ j, (hj : j < D.length) → j < i → ¬ F <:+: (D.get ⟨j, hj⟩).descr) ∧
    (find_device D F = none ↔ ∀ d ∈ D, ¬ F <:+: d.descr) ∧
    (D = [] → find_device D F = none) ∧
    (F = [] → D ≠ [] → find_device D F = D.head?) := by
  refine ⟨?_, ?_, ?_, ?_⟩
  · intro d hd
    obtain ⟨i, hi, hget, hpa, hfirst⟩ := find?_first _ D d hd
    refine ⟨of_decide_eq_true hpa, i, hi, hget, ?_⟩
    intro j hj hji
    exact of_decide_eq_false (hfirst j hj hji)
  · rw [find_device, List.find?_eq_none]
    simp
  · intro h
    subst h
    rfl
  · intro hF hD
    subst hF
    cases D with
    | nil => exact absurd rfl hD
    | cons d ds => simp [find_device]

/-! ### Claim theorems: the gain stage -/

/-- Claim C5: on every boosted (nonempty) block, the gain applied is
`32767 / peak_level` when `peak_level > 10369` and exactly `3.16`
otherwise, where `peak_level` is the maximum over all 1000 slots of the
updated peak history (unwritten slots hold their initial `0`). -/
theorem C5_gain_formula (hist : List Int) (idx : Nat) (bl : List Int)
    (hlen : hist.length = 1000) ( _hne : bl ≠ []) :
    ∃ p : Int,
      (∀ i, i < 1000 → (processBlock hist idx bl).history.getD i 0 ≤ p) ∧
      (∃ i, i < 1000 ∧ (processBlock hist idx bl).history.getD i 0 = p) ∧
      (processBlock hist idx bl).gain =
        if 10369 < p then (32767 : ℚ) / (p : ℚ) else 3.16 := by
  simp only [processBlock_def]
  set H2 := hist.set idx (listMax (bl.map absInt16)) with hH2
  have hlen2 : H2.length = 1000 := by rw [hH2, List.length_set, hlen]
  refine ⟨listMax H2, ?_, ?_, rfl⟩
  · intro i hi
    have hi2 : i < H2.length := by omega
    rw [getD_of_lt H2 i hi2]
    exact le_listMax (List.get_mem H2 i hi2)
  · have hmem : listMax H2 ∈ H2 := listMax_mem (by intro h; rw [h] at hlen2; simp at hlen2)
    obtain ⟨i, hi, hget⟩ := List.mem_iff_getElem.1 hmem
    refine ⟨i, by omega, ?_⟩
    rw [getD_of_lt H2 i hi]
    simpa using hget

/-- Claim C6 (amended): every output sample of a boosted block equals
the two's-complement 16-bit reduction of the truncation toward zero of
`sample × gain`; out-of-range products wrap around instead of being
clamped. -/
theorem C6_output_trunc_wrap (hist : List Int) (idx : Nat) (bl : List Int)
    (i : Nat) (hi : i < bl.length) :
    (processBlock hist idx bl).output.getD i 0 =
      wrap16 (ratTrunc ((bl.getD i 0 : ℚ) * (processBlock hist idx bl).gain)) := by
  simp only [processBlock_def]
  have hi2 : i < (bl.map (scaleSample (actualGain
      (listMax (hist.set idx (listMax (bl.map absInt16))))))).length := by
    rw [List.length_map]; exact hi
  rw [getD_of_lt _ i hi2, getD_of_lt bl i hi]
  simp [scaleSample]

/-- The nearest-integer-then-clamp conversion that claim C6 asserts for
output samples (the spec's `round(sample * gain)` clamped to the valid
signed 16-bit range); compared against the code's actual conversion. -/
def roundClamp (g : ℚ) (s : Int) : Int :=
  max (-32768) (min 32767 (round ((s : ℚ) * g)))

theorem foldl_max_replicate_zero (n : Nat) (a : Int) (h : 0 ≤ a) :
    List.foldl max a (List.replicate n 0) = a := by
  induction n with
  | zero => rfl
  | succ k ih =>
    rw [List.replicate_succ, List.foldl_cons, max_eq_left h]
    exact ih

/-- Writing `v ≥ 0` into slot 0 of the all-zero initial history makes
`v` the history maximum. -/
theorem listMax_initSet (v : Int) (h : 0 ≤ v) :
    listMax (initHistory.set 0 v) = v := by
  show List.foldl max v (List.replicate 999 0) = v
  exact foldl_max_replicate_zero 999 v h

/-- The instance-level floor on `ℚ` agrees with the executable
`Rat.floor`; lets concrete floors be settled by kernel reduction. -/
theorem floor_rat_run (q : ℚ) : ⌊q⌋ = Rat.floor q :=
  (Rat.floor_def).trans (Rat.floor_def' q).symm

/-- Executable form of `ratTrunc`. -/
theorem ratTrunc_run (q : ℚ) :
    ratTrunc q = if 0 ≤ q then Rat.floor q else -(Rat.floor (-q)) := by
  rw [ratTrunc]
  split
  · rw [floor_rat_run]
  · rw [show ⌈q⌉ = -⌊-q⌋ by rw [Int.floor_neg, neg_neg], floor_rat_run]

/-- Executable form of `round` on `ℚ`. -/
theorem round_run (q : ℚ) : round q = Rat.floor (q + 1 / 2) := by
  rw [round_eq, floor_rat_run]

/-- Claim C6 counterexample: from a fresh gain state, the block
`[-32768, 20000, 4]` gets gain `32767/20000` and is emitted as
`[11851, 32767, 6]`: the first sample is a modular wraparound of the
out-of-range product `-53685.4528` (round-and-clamp would give
`-32768`) and the third is the truncation of `6.5534` (round would
give `7`). -/
theorem C6_counterexample :
    (processBlock initHistory 0 [-32768, 20000, 4]).gain = (32767 : ℚ) / 20000 ∧
    (processBlock initHistory 0 [-32768, 20000, 4]).output = [11851, 32767, 6] ∧
    ([-32768, 20000, 4] : List Int).map (roundClamp ((32767 : ℚ) / 20000)) =
      [-32768, 32767, 7] ∧
    ([11851, 32767, 6] : List Int) ≠ [-32768, 32767, 7] := by
  have hbp : listMax (([-32768, 20000, 4] : List Int).map absInt16) = 20000 := by
    decide
  have hpl : listMax (initHistory.set 0
      (listMax (([-32768, 20000, 4] : List Int).map absInt16))) = 20000 := by
    rw [hbp]
    exact listMax_initSet _ (by decide)
  have hg0 : actualGain (listMax (initHistory.set 0
      (listMax (([-32768, 20000, 4] : List Int).map absInt16)))) =
      (32767 : ℚ) / 20000 := by
    rw [hpl, actualGain, if_pos (by decide)]
    norm_num
  have t1 : ratTrunc (((-32768 : Int) : ℚ) * (32767 / 20000)) = -53685 := by
    rw [ratTrunc, if_neg (by norm_num)]
    exact Int.ceil_eq_iff.2 ⟨by norm_num, by norm_num⟩
  have t2 : ratTrunc (((20000 : Int) : ℚ) * (32767 / 20000)) = 32767 := by
    rw [ratTrunc, if_pos (by norm_num)]
    exact Int.floor_eq_iff.2 ⟨by norm_num, by norm_num⟩
  have t3 : ratTrunc (((4 : Int) : ℚ) * (32767 / 20000)) = 6 := by
    rw [ratTrunc, if_pos (by norm_num)]
    exact Int.floor_eq_iff.2 ⟨by norm_num, by norm_num⟩
  have r1 : round (((-32768 : Int) : ℚ) * (32767 / 20000)) = -53685 := by
    rw [round_eq]
    exact Int.floor_eq_iff.2 ⟨by norm_num, by norm_num⟩
  have r2 : round (((20000 : Int) : ℚ) * (32767 / 20000)) = 32767 := by
    rw [round_eq]
    exact Int.floor_eq_iff.2 ⟨by norm_num, by norm_num⟩
  have r3 : round (((4 : Int) : ℚ) * (32767 / 20000)) = 7 := by
    rw [round_eq]
    exact Int.floor_eq_iff.2 ⟨by norm_num, by norm_num⟩
  refine ⟨?_, ?_, ?_, by decide⟩
  · simp only [processBlock_def]
    exact hg0
  · simp only [processBlock_def]
    rw [hg0]
    simp only [List.map_cons, List.map_nil, scaleSample, t1, t2, t3]
    decide
  · simp only [List.map_cons, List.map_nil, roundClamp, r1, r2, r3]
    decide

/-- Claim C7 (failing input): on the block `[-32768]` the value stored
into the peak history is `-32768` — the 16-bit `np.abs` overflows at
the minimum sample — which is negative and differs from the true peak
magnitude `32768`; the cursor still advances to `1`. -/
theorem C7_abs_overflow :
    (processBlock initHistory 0 [-32768]).history.getD 0 0 = -32768 ∧
    (processBlock initHistory 0 [-32768]).index = 1 ∧
    ((-32768 : Int) < 0) ∧ ((-32768 : Int) ≠ 32768) := by decide

/-- Claim C8 (amended): for a boosted (nonempty) block whose samples
all have magnitude at most 10369, processed from a state whose history
slots are all at most 10369, the gain is exactly `3.16` and every
scaled output sample stays inside the signed 16-bit range. -/
theorem C8_low_peak_gain (hist : List Int) (idx : Nat) (bl : List Int)
    (hh : ∀ x ∈ hist, x ≤ 10369) (hb : ∀ s ∈ bl, |s| ≤ 10369)
    ( _hne : bl ≠ []) :
    (processBlock hist idx bl).gain = 3.16 ∧
    ∀ y ∈ (processBlock hist idx bl).output, -32768 ≤ y ∧ y ≤ 32767 := by
  simp only [processBlock_def]
  have habs : ∀ x ∈ bl.map absInt16, x ≤ 10369 := by
    intro x hx
    obtain ⟨s, hs, rfl⟩ := List.mem_map.1 hx
    rw [absInt16_eq_abs (le_trans (hb s hs) (by decide))]
    exact hb s hs
  have hbp : listMax (bl.map absInt16) ≤ 10369 := listMax_le (by decide) habs
  have hh2 : ∀ x ∈ hist.set idx (listMax (bl.map absInt16)), x ≤ 10369 := by
    intro x hx
    rcases List.mem_or_eq_of_mem_set hx with h | h
    · exact hh x h
    · exact h ▸ hbp
  have hp : listMax (hist.set idx (listMax (bl.map absInt16))) ≤ 10369 :=
    listMax_le (by decide) hh2
  have hgain : actualGain (listMax (hist.set idx (listMax (bl.map absInt16)))) = 3.16 := by
    rw [actualGain, if_neg (by omega)]
  refine ⟨hgain, ?_⟩
  intro y hy
  rw [hgain] at hy
  obtain ⟨s, hs, rfl⟩ := List.mem_map.1 hy
  have hsq : |(s : ℚ)| ≤ 10369 := by
    have := hb s hs
    rw [← Int.cast_abs]
    exact_mod_cast this
  have habs2 := abs_le.1 hsq
  have h1 : (s : ℚ) * 3.16 < 32767 := by nlinarith [habs2.1, habs2.2]
  have h2 : -32767 < (s : ℚ) * 3.16 := by nlinarith [habs2.1, habs2.2]
  have ht := ratTrunc_range h2 h1
  rw [scaleSample, wrap16_eq_self (by omega) (by omega)]
  omega

/-- Claim C10: on every boosted (nonempty) block processed from a
history of 16-bit values, the applied gain lies in `[1, 3.16]`: it is
`32767 / peak_level ∈ [1, 3.16)` when `peak_level > 10369` (possible
since `peak_level ≤ 32767`) and exactly `3.16` otherwise — the boost
stage never attenuates. -/
theorem C10_gain_bounds (hist : List Int) (idx : Nat) (bl : List Int)
    (hh : ∀ x ∈ hist, x ≤ 32767) ( _hne : bl ≠ []) :
    1 ≤ (processBlock hist idx bl).gain ∧
    (processBlock hist idx bl).gain ≤ 3.16 ∧
    (10369 < listMax (processBlock hist idx bl).history →
      (processBlock hist idx bl).gain < 3.16) := by
  simp only [processBlock_def]
  have hPL : listMax (hist.set idx (listMax (bl.map absInt16))) ≤ 32767 := by
    refine listMax_le (by decide) ?_
    intro x hx
    rcases List.mem_or_eq_of_mem_set hx with h | h
    · exact hh x h
    · exact h ▸ blockPeak_le bl
  rw [actualGain]
  split
  · rename_i hlt
    set PL := listMax (hist.set idx (listMax (bl.map absInt16))) with hPLdef
    have hq0 : (0 : ℚ) < (PL : ℚ) := by exact_mod_cast lt_trans (by decide) hlt
    have hcastle : (PL : ℚ) ≤ 32767 := by exact_mod_cast hPL
    have hcastlt : (10369 : ℚ) < (PL : ℚ) := by exact_mod_cast hlt
    have hdivlt : (32767 : ℚ) / (PL : ℚ) < 3.16 := by
      rw [div_lt_iff₀ hq0]
      have : (10370 : ℚ) ≤ (PL : ℚ) := by
        have : (10370 : ℤ) ≤ PL := by omega
        exact_mod_cast this
      nlinarith
    exact ⟨(one_le_div hq0).2 hcastle, le_of_lt hdivlt, fun _ => hdivlt⟩
  · rename_i hge
    exact ⟨by norm_num, le_refl _, fun h => absurd h hge⟩

/-- Claim C8 counterexample: after one block of peak 20000, a block of
peak 100 — whose every sample has magnitude at most 10369 — is boosted
with gain `32767/20000`, not `3.16`: the gain follows the history
maximum, not the block peak. -/
theorem C8_counterexample :
    (∀ s ∈ ([100] : List Int), |s| ≤ 10369) ∧
    (processBlock (processBlock initHistory 0 [20000]).history
      (processBlock initHistory 0 [20000]).index [100]).gain =
      (32767 : ℚ) / 20000 ∧
    ((32767 : ℚ) / 20000) ≠ 3.16 := by
  refine ⟨by decide, ?_, by norm_num⟩
  have hb1 : listMax (([20000] : List Int).map absInt16) = 20000 := by decide
  have hb2 : listMax (([100] : List Int).map absInt16) = 100 := by decide
  have hh : (processBlock initHistory 0 [20000]).history =
      initHistory.set 0 20000 := by
    simp only [processBlock_def, hb1]
  have hi : (processBlock initHistory 0 [20000]).index = 1 := by
    simp only [processBlock_def]
  rw [hh, hi]
  have hset : (initHistory.set 0 20000).set 1 100 =
      20000 :: 100 :: List.replicate 998 0 := rfl
  have hmax : listMax (20000 :: 100 :: List.replicate 998 0) = 20000 := by
    rw [listMax_cons, List.foldl_cons, max_eq_left (by decide)]
    exact foldl_max_replicate_zero 998 20000 (by decide)
  simp only [processBlock_def, hb2, hset, hmax]
  rw [actualGain, if_pos (by decide)]
  norm_num

/-! ### Witnesses for the hypothesised claim theorems -/

/-- Witness instantiating `C4_find_device_first`: with the empty filter
a singleton catalog yields its head. -/
theorem C4_witness :
    find_device [⟨0, "Headphones".toList⟩] [] =
      ([⟨0, "Headphones".toList⟩] : List Device).head? :=
  (C4_find_device_first [⟨0, "Headphones".toList⟩] []).2.2.2 rfl (by decide)

/-- Witness instantiating `C5_gain_formula` on the first block `[100]`
from the initial gain state. -/
theorem C5_witness :
    ∃ p : Int,
      (∀ i, i < 1000 → (processBlock initHistory 0 [100]).history.getD i 0 ≤ p) ∧
      (∃ i, i < 1000 ∧ (processBlock initHistory 0 [100]).history.getD i 0 = p) ∧
      (processBlock initHistory 0 [100]).gain =
        if 10369 < p then (32767 : ℚ) / (p : ℚ) else 3.16 :=
  C5_gain_formula initHistory 0 [100]
    (by rw [initHistory, List.length_replicate]) (by decide)

/-- Witness instantiating `C6_output_trunc_wrap` at sample 0 of block
`[5]`. -/
theorem C6_witness :
    (processBlock [0] 0 [5]).output.getD 0 0 =
      wrap16 (ratTrunc ((([5] : List Int).getD 0 0 : ℚ) *
        (processBlock [0] 0 [5]).gain)) :=
  C6_output_trunc_wrap [0] 0 [5] 0 (by decide)

/-- Witness instantiating `C8_low_peak_gain` on block `[100]` from a
quiet history. -/
theorem C8_witness :
    (processBlock [0] 0 [100]).gain = 3.16 ∧
    ∀ y ∈ (processBlock [0] 0 [100]).output, -32768 ≤ y ∧ y ≤ 32767 :=
  C8_low_peak_gain [0] 0 [100] (by decide) (by decide) (by decide)

/-- Witness instantiating `C10_gain_bounds` on block `[100]` from a
quiet history. -/
theorem C10_witness :
    1 ≤ (processBlock [0] 0 [100]).gain ∧
    (processBlock [0] 0 [100]).gain ≤ 3.16 ∧
    (10369 < listMax (processBlock [0] 0 [100]).history →
      (processBlock [0] 0 [100]).gain < 3.16) :=
  C10_gain_bounds [0] 0 [100] (by decide) (by decide)

/-! ### Lemmas about `router.py` `detect_device` -/

theorem sinkTarget_congr {st1 st2 : RouterState} (h : st1.sink = st2.sink) :
    sinkTarget st1 = sinkTarget st2 := by
  rw [sinkTarget, sinkTarget, h]

theorem buildSink_sinkTarget (st : RouterState) (d : Option Device) :
    sinkTarget (buildSink st d) = some d := by
  simp [buildSink, sinkTarget]

theorem buildSink_fields (st : RouterState) (d : Option Device) :
    (buildSink st d).input_filter = st.input_filter ∧
    (buildSink st d).fallback_filter = st.fallback_filter ∧
    (buildSink st d).primary_filter = st.primary_filter ∧
    (buildSink st d).input_device = st.input_device ∧
    (buildSink st d).primary_device = st.primary_device ∧
    (buildSink st d).fallback_device = st.fallback_device ∧
    (buildSink st d).source = st.source := by
  simp [buildSink]

theorem stepIn_skip {cat : Catalog} {st : RouterState}
    (h : find_device cat.inputs st.input_filter = st.input_device) :
    stepIn cat st = .ok st := by
  simp [stepIn, h]

theorem stepIn_ok {cat : Catalog} {st st1 : RouterState}
    (h : stepIn cat st = .ok st1) :
    st1.input_device = find_device cat.inputs st.input_filter ∧
    st1.input_filter = st.input_filter ∧
    st1.fallback_filter = st.fallback_filter ∧
    st1.primary_filter = st.primary_filter ∧
    st1.fallback_device = st.fallback_device ∧
    st1.primary_device = st.primary_device ∧
    st1.sink = st.sink := by
  simp only [stepIn] at h
  split at h
  · rename_i heq
    obtain rfl : st = st1 := by injection h
    exact ⟨heq.symm, rfl, rfl, rfl, rfl, rfl, rfl⟩
  · rename_i hne
    split at h
    · cases h
    · rename_i dev hdev
      obtain rfl : buildSource { st with input_device := some dev } = st1 := by
        injection h
      simp [buildSource, hdev]

theorem stepFb_skip {cat : Catalog} {st : RouterState}
    (h : find_device cat.outputs st.fallback_filter = st.fallback_device) :
    stepFb cat st = .ok st := by
  simp [stepFb, h]

theorem stepFb_ok {cat : Catalog} {st st2 : RouterState}
    (h : stepFb cat st = .ok st2) :
    st2.fallback_device = find_device cat.outputs st.fallback_filter ∧
    st2.input_filter = st.input_filter ∧
    st2.fallback_filter = st.fallback_filter ∧
    st2.primary_filter = st.primary_filter ∧
    st2.input_device = st.input_device ∧
    st2.primary_device = st.primary_device := by
  simp only [stepFb] at h
  split at h
  · rename_i heq
    injection h with h2
    subst h2
    exact ⟨heq.symm, rfl, rfl, rfl, rfl, rfl⟩
  · rename_i hne
    split at h
    · exact Except.noConfusion h
    · rename_i fv hfv
      injection h with h2
      subst h2
      split
      · simp [buildSink]
      · simp

theorem stepPr_skip {cat : Catalog} {st : RouterState}
    (h : find_device cat.outputs st.primary_filter = st.primary_device) :
    stepPr cat st = st := by
  simp [stepPr, h]

theorem stepPr_fields (cat : Catalog) (st : RouterState) :
    (stepPr cat st).primary_device = find_device cat.outputs st.primary_filter ∧
    (stepPr cat st).input_filter = st.input_filter ∧
    (stepPr cat st).fallback_filter = st.fallback_filter ∧
    (stepPr cat st).primary_filter = st.primary_filter ∧
    (stepPr cat st).input_device = st.input_device ∧
    (stepPr cat st).fallback_device = st.fallback_device := by
  simp only [stepPr]
  split
  · rename_i heq
    exact ⟨heq.symm, rfl, rfl, rfl, rfl, rfl⟩
  · rename_i hne
    split
    · rename_i dev hdev
      rw [hdev]
      simp [buildSink]
    · rename_i hnone
      rw [hnone]
      simp [buildSink]

/-- Characterisation of a completed `router.py` `detect_device` run:
filters are untouched, every device slot holds exactly what its filter
resolves to in the given catalog, and the emitted snapshot is the
snapshot of the final state. -/
theorem detectPy_ok {st cat st3 snap}
    (h : detectDevicePy st cat = .ok (st3, snap)) :
    st3.input_filter = st.input_filter ∧
    st3.fallback_filter = st.fallback_filter ∧
    st3.primary_filter = st.primary_filter ∧
    st3.input_device = find_device cat.inputs st.input_filter ∧
    st3.fallback_device = find_device cat.outputs st.fallback_filter ∧
    st3.primary_device = find_device cat.outputs st.primary_filter ∧
    snap = mkSnapshotPy st3 cat := by
  rw [detectDevicePy] at h
  cases h1 : stepIn cat st with
  | error e => simp only [h1] at h; exact Except.noConfusion h
  | ok st1 =>
    simp only [h1] at h
    cases h2 : stepFb cat st1 with
    | error e => simp only [h2] at h; exact Except.noConfusion h
    | ok st2 =>
      simp only [h2, Except.ok.injEq, Prod.mk.injEq] at h
      obtain ⟨rfl, hsnap⟩ := h
      obtain ⟨i1, i2, i3, i4, i5, i6, _⟩ := stepIn_ok h1
      obtain ⟨f1, f2, f3, f4, f5, f6⟩ := stepFb_ok h2
      obtain ⟨p1, p2, p3, p4, p5, p6⟩ := stepPr_fields cat st2
      refine ⟨?_, ?_, ?_, ?_, ?_, ?_, hsnap.symm⟩
      · rw [p2, f2, i2]
      · rw [p3, f3, i3]
      · rw [p4, f4, i4]
      · rw [p5, f5, i1]
      · rw [p6, f1, i3]
      · rw [p1, f4, i4]

/-- A completed `router.py` `detect_device` run is a fixpoint: running
it again with the same catalog changes nothing and re-emits the same
snapshot. -/
theorem detectPy_idem {st cat st3 snap}
    (h : detectDevicePy st cat = .ok (st3, snap)) :
    detectDevicePy st3 cat = .ok (st3, snap) := by
  obtain ⟨e1, e2, e3, e4, e5, e6, e7⟩ := detectPy_ok h
  have h1 : stepIn cat st3 = .ok st3 := stepIn_skip (by rw [e1, ← e4])
  have h2 : stepFb cat st3 = .ok st3 := stepFb_skip (by rw [e2, ← e5])
  have h3 : stepPr cat st3 = st3 := stepPr_skip (by rw [e3, ← e6])
  rw [detectDevicePy, h1]
  simp only [h2, h3, e7]

/-! ### Lemmas about `router-multi.py` `detect_device` -/

theorem multiInput_skip {cat : Catalog} {s0 : Option Source} {st : RouterState}
    (h : find_device cat.inputs st.input_filter = st.input_device) :
    multiInput cat s0 st = st := by
  simp [multiInput, h]

theorem multiInput_fields (cat : Catalog) (s0 : Option Source) (st : RouterState) :
    (multiInput cat s0 st).input_device = find_device cat.inputs st.input_filter ∧
    (multiInput cat s0 st).input_filter = st.input_filter ∧
    (multiInput cat s0 st).fallback_filter = st.fallback_filter ∧
    (multiInput cat s0 st).primary_filter = st.primary_filter ∧
    (multiInput cat s0 st).fallback_device = st.fallback_device ∧
    (multiInput cat s0 st).primary_device = st.primary_device ∧
    (multiInput cat s0 st).sink = st.sink ∧
    (multiInput cat s0 st).liveSinks = st.liveSinks ∧
    (multiInput cat s0 st).nextSinkId = st.nextSinkId := by
  simp only [multiInput]
  split
  · rename_i heq
    exact ⟨heq.symm, rfl, rfl, rfl, rfl, rfl, rfl, rfl, rfl⟩
  · exact ⟨rfl, rfl, rfl, rfl, rfl, rfl, rfl, rfl, rfl⟩

theorem multiFallback_skip {cat : Catalog} {s0 : Option Sink} {st : RouterState}
    (h : find_device cat.outputs st.fallback_filter = st.fallback_device) :
    multiFallback cat s0 st = st := by
  simp [multiFallback, h]

theorem multiFallback_fields (cat : Catalog) (s0 : Option Sink) (st : RouterState) :
    (multiFallback cat s0 st).fallback_device =
      find_device cat.outputs st.fallback_filter ∧
    (multiFallback cat s0 st).input_filter = st.input_filter ∧
    (multiFallback cat s0 st).fallback_filter = st.fallback_filter ∧
    (multiFallback cat s0 st).primary_filter = st.primary_filter ∧
    (multiFallback cat s0 st).input_device = st.input_device ∧
    (multiFallback cat s0 st).primary_device = st.primary_device ∧
    (multiFallback cat s0 st).source = st.source := by
  simp only [multiFallback]
  split
  · rename_i heq
    exact ⟨heq.symm, rfl, rfl, rfl, rfl, rfl, rfl⟩
  · split
    · exact ⟨rfl, rfl, rfl, rfl, rfl, rfl, rfl⟩
    · exact ⟨rfl, rfl, rfl, rfl, rfl, rfl, rfl⟩

theorem multiPrimary_skip {cat : Catalog} {s0 : Option Sink} {st : RouterState}
    (h : find_device cat.outputs st.primary_filter = st.primary_device) :
    multiPrimary cat s0 st = st := by
  simp [multiPrimary, h]

theorem multiPrimary_fields (cat : Catalog) (s0 : Option Sink) (st : RouterState) :
    (multiPrimary cat s0 st).primary_device =
      find_device cat.outputs st.primary_filter ∧
    (multiPrimary cat s0 st).input_filter = st.input_filter ∧
    (multiPrimary cat s0 st).fallback_filter = st.fallback_filter ∧
    (multiPrimary cat s0 st).primary_filter = st.primary_filter ∧
    (multiPrimary cat s0 st).input_device = st.input_device ∧
    (multiPrimary cat s0 st).fallback_device = st.fallback_device := by
  simp only [multiPrimary]
  split
  · rename_i heq
    exact ⟨heq.symm, rfl, rfl, rfl, rfl, rfl⟩
  · exact ⟨rfl, rfl, rfl, rfl, rfl, rfl⟩

/-- Characterisation of `multiCore`: filters untouched, every device
slot holds what its filter resolves to. -/
theorem multiCore_fields (st : RouterState) (cat : Catalog) :
    (multiCore st cat).input_filter = st.input_filter ∧
    (multiCore st cat).fallback_filter = st.fallback_filter ∧
    (multiCore st cat).primary_filter = st.primary_filter ∧
    (multiCore st cat).input_device = find_device cat.inputs st.input_filter ∧
    (multiCore st cat).fallback_device =
      find_device cat.outputs st.fallback_filter ∧
    (multiCore st cat).primary_device =
      find_device cat.outputs st.primary_filter := by
  obtain ⟨i1, i2, i3, i4, i5, i6, _, _, _⟩ :=
    multiInput_fields cat st.source st
  obtain ⟨f1, f2, f3, f4, f5, f6, _⟩ :=
    multiFallback_fields cat st.sink (multiInput cat st.source st)
  obtain ⟨p1, p2, p3, p4, p5, p6⟩ :=
    multiPrimary_fields cat st.sink
      (multiFallback cat st.sink (multiInput cat st.source st))
  rw [multiCore]
  refine ⟨?_, ?_, ?_, ?_, ?_, ?_⟩
  · rw [p2, f2, i2]
  · rw [p3, f3, i3]
  · rw [p4, f4, i4]
  · rw [p5, f5, i1]
  · rw [p6, f1, i3]
  · rw [p1, f4, i4]

/-- A completed `multiCore` run is a fixpoint of `multiCore`. -/
theorem multiCore_idem (st : RouterState) (cat : Catalog) :
    multiCore (multiCore st cat) cat = multiCore st cat := by
  obtain ⟨e1, e2, e3, e4, e5, e6⟩ := multiCore_fields st cat
  rw [multiCore, multiInput_skip (by rw [e1, ← e4]),
    multiFallback_skip (by rw [e2, ← e5]),
    multiPrimary_skip (by rw [e3, ← e6])]

theorem detectMulti_ok {st : RouterState} {cat : Catalog}
    {st1 : RouterState} {snap : SnapshotM}
    (h : detectDeviceMulti st cat = .ok (st1, snap)) :
    st1 = multiCore st cat ∧ sendDeviceInfo st1 cat = .ok snap := by
  rw [detectDeviceMulti] at h
  cases hs : sendDeviceInfo (multiCore st cat) cat with
  | error e => simp only [hs] at h; exact Except.noConfusion h
  | ok snap2 =>
    simp only [hs, Except.ok.injEq, Prod.mk.injEq] at h
    obtain ⟨h1, h2⟩ := h
    subst h1
    rw [hs, h2]
    exact ⟨rfl, rfl⟩

/-- A completed `router-multi.py` `detect_device` run is a fixpoint. -/
theorem detectMulti_idem {st : RouterState} {cat : Catalog}
    {st1 : RouterState} {snap : SnapshotM}
    (h : detectDeviceMulti st cat = .ok (st1, snap)) :
    detectDeviceMulti st1 cat = .ok (st1, snap) := by
  obtain ⟨rfl, hs⟩ := detectMulti_ok h
  rw [detectDeviceMulti, multiCore_idem]
  simp only [hs]

/-! ### The targeting invariant is preserved by `router.py`
`detect_device` -/

theorem stepIn_Inv {cat : Catalog} {st st1 : RouterState}
    (h : stepIn cat st = .ok st1) (hI : Inv st) : Inv st1 := by
  obtain ⟨_, _, _, _, e5, e6, e7⟩ := stepIn_ok h
  constructor
  · intro p hp
    rw [sinkTarget_congr e7]
    exact hI.1 p (e6 ▸ hp)
  · intro hn f hf
    rw [sinkTarget_congr e7]
    exact hI.2 (e6 ▸ hn) f (e5 ▸ hf)

theorem stepFb_sink_of_psome {cat : Catalog} {st1 st2 : RouterState}
    (h2 : stepFb cat st1 = .ok st2)
    (hp : find_device cat.outputs st1.primary_filter ≠ none) :
    st2.sink = st1.sink := by
  simp only [stepFb] at h2
  split at h2
  · injection h2 with h3
    subst h3
    rfl
  · split at h2
    · exact Except.noConfusion h2
    · rename_i fv hfv
      injection h2 with h3
      subst h3
      rfl

theorem stepFb_target_pnone {cat : Catalog} {st1 st2 : RouterState}
    (hI : Inv st1) (h2 : stepFb cat st1 = .ok st2)
    (hp : find_device cat.outputs st1.primary_filter = none)
    (hpd : st1.primary_device = none) :
    ∀ fdev, st2.fallback_device = some fdev →
      sinkTarget st2 = some (some fdev) := by
  intro fdev hf
  simp only [stepFb] at h2
  split at h2
  · rename_i hfeq
    injection h2 with h3
    subst h3
    exact hI.2 hpd fdev hf
  · split at h2
    · exact Except.noConfusion h2
    · rename_i fv hfv
      injection h2 with h3
      subst h3
      rw [buildSink_sinkTarget]
      have hf2 : find_device cat.outputs st1.fallback_filter = some fdev := by
        simpa [buildSink] using hf
      rw [hf2]

theorem stepOut_Inv {cat : Catalog} {st1 st2 : RouterState}
    (hI : Inv st1) (h2 : stepFb cat st1 = .ok st2) : Inv (stepPr cat st2) := by
  obtain ⟨f1, _, _, f4, _, f6⟩ := stepFb_ok h2
  rw [stepPr]
  split
  · rename_i heq
    constructor
    · intro q hq
      have hsink : st2.sink = st1.sink :=
        stepFb_sink_of_psome h2 (by rw [← f4, heq, hq]; exact Option.some_ne_none q)
      rw [sinkTarget_congr hsink]
      exact hI.1 q (f6 ▸ hq)
    · intro hn fdev hf
      exact stepFb_target_pnone hI h2 (by rw [← f4, heq, hn]) (f6 ▸ hn) fdev hf
  · rename_i hne
    split
    · rename_i dev hdev
      constructor
      · intro q hq
        have hq2 : find_device cat.outputs st2.primary_filter = some q := by
          simpa [buildSink] using hq
        rw [buildSink_sinkTarget]
        rw [hdev] at hq2
        injection hq2 with hq3
        rw [hq3]
      · intro hn fdev hf
        have hn2 : find_device cat.outputs st2.primary_filter = none := by
          simpa [buildSink] using hn
        rw [hdev] at hn2
        exact Option.noConfusion hn2
    · rename_i hnone
      constructor
      · intro q hq
        have hq2 : find_device cat.outputs st2.primary_filter = some q := by
          simpa [buildSink] using hq
        rw [hnone] at hq2
        exact Option.noConfusion hq2
      · intro hn fdev hf
        rw [buildSink_sinkTarget]
        have hf2 : st2.fallback_device = some fdev := by
          simpa [buildSink] using hf
        rw [hf2]

/-- A completed `router.py` `detect_device` run preserves the targeting
invariant. -/
theorem detectPy_Inv {st : RouterState} {cat : Catalog} {st3 : RouterState}
    {snap : SnapshotPy} (hI : Inv st)
    (h : detectDevicePy st cat = .ok (st3, snap)) : Inv st3 := by
  rw [detectDevicePy] at h
  cases h1 : stepIn cat st with
  | error e => simp only [h1] at h; exact Except.noConfusion h
  | ok st1 =>
    simp only [h1] at h
    cases h2 : stepFb cat st1 with
    | error e => simp only [h2] at h; exact Except.noConfusion h
    | ok st2 =>
      simp only [h2, Except.ok.injEq, Prod.mk.injEq] at h
      obtain ⟨rfl, -⟩ := h
      exact stepOut_Inv (stepIn_Inv h1 hI) h2

/-! ### The targeting invariant is preserved by `router-multi.py`
`detect_device` -/

theorem multiInput_Inv (cat : Catalog) (s0 : Option Source)
    (st : RouterState) (hI : Inv st) : Inv (multiInput cat s0 st) := by
  obtain ⟨_, _, _, _, e5, e6, e7, _, _⟩ := multiInput_fields cat s0 st
  constructor
  · intro p hp
    rw [sinkTarget_congr e7]
    exact hI.1 p (e6 ▸ hp)
  · intro hn f hf
    rw [sinkTarget_congr e7]
    exact hI.2 (e6 ▸ hn) f (e5 ▸ hf)

theorem multiFallback_sink_of_psome {cat : Catalog} {s0 : Option Sink}
    {st : RouterState}
    (hp : find_device cat.outputs st.primary_filter ≠ none) :
    (multiFallback cat s0 st).sink = st.sink := by
  simp only [multiFallback]
  split
  · rfl
  · rfl

theorem multiFallback_target_pnone {cat : Catalog} {s0 : Option Sink}
    {st : RouterState} (hI : Inv st)
    (hp : find_device cat.outputs st.primary_filter = none)
    (hpd : st.primary_device = none) :
    ∀ fdev, (multiFallback cat s0 st).fallback_device = some fdev →
      sinkTarget (multiFallback cat s0 st) = some (some fdev) := by
  intro fdev hf
  simp only [multiFallback] at hf ⊢
  split at hf
  · rename_i hfeq
    rw [if_pos hfeq]
    exact hI.2 hpd fdev hf
  · rename_i hfne
    rw [if_neg hfne, if_pos hp]
    have hf2 : find_device cat.outputs st.fallback_filter = some fdev := by
      simpa using hf
    simp [sinkTarget, hf2]

theorem multiOut_Inv (cat : Catalog) (s0 : Option Sink)
    {st1 : RouterState} (hI : Inv st1) :
    Inv (multiPrimary cat s0 (multiFallback cat s0 st1)) := by
  obtain ⟨f1, _, _, f4, _, f6, _⟩ := multiFallback_fields cat s0 st1
  rw [multiPrimary]
  split
  · rename_i heq
    constructor
    · intro q hq
      have hsink : (multiFallback cat s0 st1).sink = st1.sink :=
        multiFallback_sink_of_psome
          (by rw [← f4, heq, hq]; exact Option.some_ne_none q)
      rw [sinkTarget_congr hsink]
      exact hI.1 q (f6 ▸ hq)
    · intro hn fdev hf
      exact multiFallback_target_pnone hI (by rw [← f4, heq, hn]) (f6 ▸ hn)
        fdev hf
  · rename_i hne
    constructor
    · intro q hq
      have hq2 : find_device cat.outputs
          (multiFallback cat s0 st1).primary_filter = some q := by
        simpa using hq
      simp [sinkTarget, hq2]
    · intro hn fdev hf
      have hn2 : find_device cat.outputs
          (multiFallback cat s0 st1).primary_filter = none := by
        simpa using hn
      have hf2 : (multiFallback cat s0 st1).fallback_device = some fdev := by
        simpa using hf
      simp [sinkTarget, hn2, hf2]

/-- A completed `router-multi.py` `detect_device` run preserves the
targeting invariant. -/
theorem detectMulti_Inv {st : RouterState} {cat : Catalog}
    {st1 : RouterState} {snap : SnapshotM} (hI : Inv st)
    (h : detectDeviceMulti st cat = .ok (st1, snap)) : Inv st1 := by
  obtain ⟨rfl, -⟩ := detectMulti_ok h
  rw [multiCore]
  exact multiOut_Inv cat st.sink (multiInput_Inv cat st.source st hI)

/-- The invariant holds vacuously in the initial state (no device
resolved, no sink). -/
theorem Inv_initState : Inv initState := by
  constructor
  · intro p hp
    exact absurd hp (by simp [initState])
  · intro hn f hf
    exact absurd hf (by simp [initState])

/-! ### Concrete devices and states for the routing claims -/

def devHeadphones : Device := ⟨0, "Headphones".toList⟩

def devSpeakersA : Device := ⟨1, "Speakers A".toList⟩

def devSpeakersB : Device := ⟨2, "Speakers B".toList⟩

def devCable : Device := ⟨3, "Virtual Audio Cable".toList⟩

def devSpeakers : Device := ⟨5, "Speakers".toList⟩

/-- Pre-state for the C1 scenario: a session whose primary device is
connected — sink 10 live on the headphones — with "Speakers A" as the
resolved fallback (the state `detect_device` leaves after a catalog
containing those devices). -/
def c1State : RouterState := { initState with
  input_device := some devCable
  primary_device := some devHeadphones
  fallback_device := some devSpeakersA
  sink := some ⟨10, some devHeadphones⟩
  liveSinks := [⟨10, some devHeadphones⟩]
  source := some ⟨11, some devCable⟩
  liveSources := [⟨11, some devCable⟩]
  nextSinkId := 12
  nextSourceId := 13 }

/-- Catalog after a hot-unplug: headphones and "Speakers A" are gone;
"Speakers B" appeared. -/
def c1Catalog : Catalog := ⟨[devCable], [devSpeakersB]⟩

/-- A `router.py` session whose input filter had resolved (source
running on the virtual cable), as left by a run on a catalog containing
the cable. -/
def c2StatePy : RouterState := { initState with
  input_device := some devCable
  source := some ⟨0, some devCable⟩
  liveSources := [⟨0, some devCable⟩]
  nextSourceId := 1 }

/-! ### Claim theorems: routing -/

/-- Claim C1 (failing input): on the `c1Catalog` change,
`router-multi.py` rebuilds the sink in both the fallback branch and the
primary branch of one `detect_device` call; each branch stops only the
sink captured before the call (id 10), so the first new sink (id 12) is
started and never stopped — after the call two output sinks (ids 12
and 13) are live simultaneously, contradicting the
at-most-one-live-sink claim. -/
theorem C1_two_live_sinks :
    (detectDeviceMulti c1State c1Catalog).map (fun r => r.1.liveSinks) =
      .ok [⟨12, some devSpeakersB⟩, ⟨13, some devSpeakersB⟩] := by decide

/-- Claim C2 (failing input): device-resolution failure raises instead
of degrading to a sentinel snapshot.  A fresh `router-multi.py` session
whose input filter matches nothing raises `AttributeError` in
`send_device_info` (`self.input_device.description()` on `None`); a
`router.py` session whose resolved input device disappears raises while
printing `input_device.description()` in `detect_device`.  No snapshot
is emitted in either case. -/
theorem C2_resolution_failure_raises :
    detectDeviceMulti initState ⟨[], [devSpeakers]⟩ = .error () ∧
    detectDevicePy c2StatePy ⟨[], []⟩ = .error () := by decide

/-- Claim C3: after any single completed re-evaluation from a state
satisfying the targeting invariant, in both variants, the output sink
targets the device the primary filter resolves to whenever the primary
resolves, and targets the fallback device whenever the primary resolves
to null but the fallback resolves — with no further trigger needed. -/
theorem C3_primary_precedence :
    (∀ st cat st3 snap, Inv st → detectDevicePy st cat = .ok (st3, snap) →
      (∀ dev, find_device cat.outputs st.primary_filter = some dev →
        sinkTarget st3 = some (some dev)) ∧
      (find_device cat.outputs st.primary_filter = none →
        ∀ dev, find_device cat.outputs st.fallback_filter = some dev →
          sinkTarget st3 = some (some dev))) ∧
    (∀ st cat st3 snap, Inv st → detectDeviceMulti st cat = .ok (st3, snap) →
      (∀ dev, find_device cat.outputs st.primary_filter = some dev →
        sinkTarget st3 = some (some dev)) ∧
      (find_device cat.outputs st.primary_filter = none →
        ∀ dev, find_device cat.outputs st.fallback_filter = some dev →
          sinkTarget st3 = some (some dev))) := by
  constructor
  · intro st cat st3 snap hI h
    have hInv := detectPy_Inv hI h
    obtain ⟨e1, e2, e3, e4, e5, e6, e7⟩ := detectPy_ok h
    constructor
    · intro dev hdev
      exact hInv.1 dev (by rw [e6, hdev])
    · intro hp dev hdev
      exact hInv.2 (by rw [e6, hp]) dev (by rw [e5, hdev])
  · intro st cat st3 snap hI h
    have hInv := detectMulti_Inv hI h
    obtain ⟨rfl, -⟩ := detectMulti_ok h
    obtain ⟨m1, m2, m3, m4, m5, m6⟩ := multiCore_fields st cat
    constructor
    · intro dev hdev
      exact hInv.1 dev (by rw [m6, hdev])
    · intro hp dev hdev
      exact hInv.2 (by rw [m6, hp]) dev (by rw [m5, hdev])

/-- The post-state of the C3 witness run: primary resolved to the
headphones, sink 0 built on them. -/
def c3Post : RouterState := { initState with
  primary_device := some devHeadphones
  sink := some ⟨0, some devHeadphones⟩
  liveSinks := [⟨0, some devHeadphones⟩]
  nextSinkId := 1 }

/-- Witness instantiating `C3_primary_precedence` (router.py side): from
the initial state, with a catalog whose only output matches the primary
filter, the completed run leaves the sink targeting that device. -/
theorem C3_witness :
    sinkTarget c3Post = some (some devHeadphones) :=
  (C3_primary_precedence.1 initState ⟨[], [devHeadphones]⟩ c3Post
    (mkSnapshotPy c3Post ⟨[], [devHeadphones]⟩) Inv_initState
    (by decide)).1 devHeadphones (by decide)

/-- Claim C9: when the catalog and all three filters are unchanged,
re-running `detect_device` is idempotent in both variants: the second
run leaves the routing state exactly as the first left it (so no stream
is rebuilt — live lists and stream ids are part of the state) and
emits the identical snapshot. -/
theorem C9_idempotent :
    (∀ st cat st1 snap, detectDevicePy st cat = .ok (st1, snap) →
      detectDevicePy st1 cat = .ok (st1, snap)) ∧
    (∀ st cat st1 snap, detectDeviceMulti st cat = .ok (st1, snap) →
      detectDeviceMulti st1 cat = .ok (st1, snap)) :=
  ⟨fun _ _ _ _ h => detectPy_idem h, fun _ _ _ _ h => detectMulti_idem h⟩

/-- Witness instantiating `C9_idempotent` on the initial state and the
empty catalog. -/
theorem C9_witness :
    detectDevicePy initState ⟨[], []⟩ =
      .ok (initState, mkSnapshotPy initState ⟨[], []⟩) :=
  C9_idempotent.1 initState ⟨[], []⟩ initState
    (mkSnapshotPy initState ⟨[], []⟩) (by decide)

end AutoAudio
